import Mathlib

/-!
# Verification of the background job-processing subsystem

Shallow embedding, in Lean 4, of the resilient-worker core of the
`nextgen-fiber-ai` repository: the circuit breaker
(`src/worker/circuit_breaker.py`), the retry policy (`src/worker/retry.py`),
the queue consumer's per-job processing (`src/worker/consumer.py`), and the
queue client's scoring and dead-letter operations
(`src/backend/services/queue/redis_client.py`).

Time is modelled explicitly: every operation that reads the wall clock in
Python takes a `now : ℚ` argument.  Randomness (`random.uniform`) is
modelled as an oracle argument constrained by the interval the library
guarantees.  Python floats are modelled as rationals.
-/

namespace Worker

/-! ## Circuit breaker (`src/worker/circuit_breaker.py`) -/

/-- Circuit breaker states (`CircuitState`). -/
inductive CircuitState where
  | closed
  | opened
  | halfOpen
deriving DecidableEq, Repr

/-- Circuit breaker statistics (`CircuitStats`). -/
structure CircuitStats where
  failures : ℕ
  successes : ℕ
  last_failure_time : Option ℚ
  last_success_time : Option ℚ
  state_changed_at : ℚ
deriving DecidableEq, Repr

/-- The mutable state of a `CircuitBreaker` instance together with its
configuration (`__init__`). -/
structure CircuitBreaker where
  failure_threshold : ℕ
  recovery_timeout : ℚ
  success_threshold : ℕ
  state : CircuitState
  stats : CircuitStats
  half_open_successes : ℕ
deriving DecidableEq, Repr

/-- A freshly constructed breaker (`CircuitBreaker.__init__`): closed, with
zeroed stats and `state_changed_at` set to construction time. -/
def CircuitBreaker.init (failure_threshold : ℕ) (recovery_timeout : ℚ)
    (success_threshold : ℕ) (now : ℚ) : CircuitBreaker :=
  { failure_threshold := failure_threshold
    recovery_timeout := recovery_timeout
    success_threshold := success_threshold
    state := CircuitState.closed
    stats :=
      { failures := 0, successes := 0, last_failure_time := none
        last_success_time := none, state_changed_at := now }
    half_open_successes := 0 }

/-- Model of `CircuitBreaker._transition_to`: switch state, stamp
`state_changed_at`, and zero the half-open success counter when entering
half-open. -/
def CircuitBreaker.transition_to (cb : CircuitBreaker) (s : CircuitState)
    (now : ℚ) : CircuitBreaker :=
  { cb with
    state := s
    stats := { cb.stats with state_changed_at := now }
    half_open_successes :=
      if s = CircuitState.halfOpen then 0 else cb.half_open_successes }

/-- Model of `CircuitBreaker._check_recovery`: an open breaker whose recovery
timeout has elapsed moves to half-open; otherwise nothing changes. -/
def CircuitBreaker.check_recovery (cb : CircuitBreaker) (now : ℚ) :
    CircuitBreaker :=
  if cb.state = CircuitState.opened ∧
      now - cb.stats.state_changed_at ≥ cb.recovery_timeout then
    cb.transition_to CircuitState.halfOpen now
  else cb

/-- The `state` property: reading the state first runs the lazy recovery
check.  Returns the state seen by the reader together with the (possibly
transitioned) breaker. -/
def CircuitBreaker.read_state (cb : CircuitBreaker) (now : ℚ) :
    CircuitState × CircuitBreaker :=
  let cb := cb.check_recovery now
  (cb.state, cb)

/-- Model of `CircuitBreaker.record_success`: bump the success stats; in half-open,
bump the half-open counter and close the circuit (zeroing the failure
count) once it reaches `success_threshold`. -/
def CircuitBreaker.record_success (cb : CircuitBreaker) (now : ℚ) :
    CircuitBreaker :=
  let cb := { cb with
    stats := { cb.stats with
      successes := cb.stats.successes + 1
      last_success_time := some now } }
  if cb.state = CircuitState.halfOpen then
    let cb := { cb with half_open_successes := cb.half_open_successes + 1 }
    if cb.half_open_successes ≥ cb.success_threshold then
      let cb := cb.transition_to CircuitState.closed now
      { cb with stats := { cb.stats with failures := 0 } }
    else cb
  else cb

/-- Model of `CircuitBreaker.record_failure`: bump the failure stats; a half-open
breaker reopens immediately; a closed breaker opens once the failure count
reaches `failure_threshold`. -/
def CircuitBreaker.record_failure (cb : CircuitBreaker) (now : ℚ) :
    CircuitBreaker :=
  let cb := { cb with
    stats := { cb.stats with
      failures := cb.stats.failures + 1
      last_failure_time := some now } }
  if cb.state = CircuitState.halfOpen then
    cb.transition_to CircuitState.opened now
  else if cb.state = CircuitState.closed then
    if cb.stats.failures ≥ cb.failure_threshold then
      cb.transition_to CircuitState.opened now
    else cb
  else cb

/-- Model of `CircuitBreaker.allow_request`: closed and half-open admit the call,
open rejects it.  The state read performs the lazy recovery check. -/
def CircuitBreaker.allow_request (cb : CircuitBreaker) (now : ℚ) :
    Bool × CircuitBreaker :=
  let (st, cb) := cb.read_state now
  (st ≠ CircuitState.opened, cb)

/-- Model of `CircuitBreaker.reset`: force the breaker back to a freshly
constructed closed state. -/
def CircuitBreaker.reset (cb : CircuitBreaker) (now : ℚ) : CircuitBreaker :=
  { cb with
    state := CircuitState.closed
    stats :=
      { failures := 0, successes := 0, last_failure_time := none
        last_success_time := none, state_changed_at := now }
    half_open_successes := 0 }

/-- Outcome of running a wrapped call through the breaker
(`__enter__`/`__exit__` around the function body). -/
inductive CallOutcome (ε α : Type) where
  | rejected (recovery_time : ℚ)
  | ok (v : α)
  | errored (e : ε)
deriving DecidableEq, Repr

/-- One wrapped call (`with breaker: f()`): `__enter__` consults
`allow_request` and, when the circuit is open, raises
`CircuitBreakerError` carrying `state_changed_at + recovery_timeout`
without invoking the function; otherwise the function runs and
`__exit__` records exactly one success or failure. -/
def CircuitBreaker.wrapped_call (cb : CircuitBreaker) (now : ℚ)
    (f : Unit → Except ε α) : CallOutcome ε α × CircuitBreaker :=
  let (allowed, cb) := cb.allow_request now
  if allowed then
    match f () with
    | Except.ok v => (CallOutcome.ok v, cb.record_success now)
    | Except.error e => (CallOutcome.errored e, cb.record_failure now)
  else
    (CallOutcome.rejected (cb.stats.state_changed_at + cb.recovery_timeout),
      cb)

/-- An event fed to the breaker: a successful call or a failed call, at a
given time. -/
inductive BreakerEvent where
  | success (t : ℚ)
  | failure (t : ℚ)
deriving DecidableEq, Repr

/-- Apply one recorded event. -/
def CircuitBreaker.apply_event (cb : CircuitBreaker) :
    BreakerEvent → CircuitBreaker
  | BreakerEvent.success t => cb.record_success t
  | BreakerEvent.failure t => cb.record_failure t

/-- Apply a sequence of recorded events left to right. -/
def CircuitBreaker.apply_events (cb : CircuitBreaker)
    (es : List BreakerEvent) : CircuitBreaker :=
  es.foldl CircuitBreaker.apply_event cb

/-- Number of failure events in a list. -/
def failureCount (es : List BreakerEvent) : ℕ :=
  es.countP fun e => match e with
    | BreakerEvent.failure _ => true
    | BreakerEvent.success _ => false

/-! ## Retry policy (`src/worker/retry.py`) -/

/-- Model of `exponential_backoff`: `delay = min(base_delay * 2^(attempt-1),
max_delay)`, plus the jitter sample `u` drawn by `random.uniform` from
`[-delay/4, delay/4]` when jitter is enabled, clamped below at 0. -/
def exponential_backoff (attempt : ℕ) (base_delay max_delay : ℚ)
    (jitter : Bool) (u : ℚ) : ℚ :=
  let delay := base_delay * 2 ^ (attempt - 1)
  let delay := min delay max_delay
  let delay := if jitter then delay + u else delay
  max 0 delay

/-- Result of running the `retry`-decorated wrapper.  `uncaught` is an
exception whose class is not in the `exceptions` tuple (propagates as
itself), `propagated` is one `should_retry` rejected, `exhausted` is the
`RetryExhausted` error carrying `last_exception`. -/
inductive RetryResult (ε α : Type) where
  | ok (v : α)
  | uncaught (e : ε)
  | propagated (e : ε)
  | exhausted (last_exception : Option ε)
deriving DecidableEq, Repr

/-- The `for attempt in range(1, max_attempts + 1)` loop body of the
`retry` decorator's `wrapper`.  `f i` is what the wrapped function does on
its `i`-th invocation; `isCatchable e` is membership of `e`'s class in the
`exceptions` tuple; `shouldRetry` is the optional predicate (`fun _ =>
true` when absent). -/
def retryGo (max_attempts : ℕ) (isCatchable shouldRetry : ε → Bool)
    (f : ℕ → Except ε α) (attempt : ℕ) (last : Option ε) :
    RetryResult ε α :=
  if attempt > max_attempts then RetryResult.exhausted last
  else
    match f attempt with
    | Except.ok v => RetryResult.ok v
    | Except.error e =>
      if ¬ isCatchable e then RetryResult.uncaught e
      else if ¬ shouldRetry e then RetryResult.propagated e
      else if attempt = max_attempts then RetryResult.exhausted (some e)
      else retryGo max_attempts isCatchable shouldRetry f (attempt + 1)
        (some e)
termination_by max_attempts + 1 - attempt
decreasing_by
  simp_wf
  omega

/-- The `retry` decorator applied to a function: run the attempt loop
starting at attempt 1 with no exception recorded. -/
def retry (max_attempts : ℕ) (isCatchable shouldRetry : ε → Bool)
    (f : ℕ → Except ε α) : RetryResult ε α :=
  retryGo max_attempts isCatchable shouldRetry f 1 none

/-! ## Consumer job processing (`src/worker/consumer.py`) -/

/-- Worker settings consumed by `QueueConsumer._process_job`. -/
structure WorkerSettings where
  max_retries : ℕ
  retry_delay_seconds : ℚ
deriving DecidableEq, Repr

/-- A dequeued job as `_process_job` sees it: `id`, `data` (with its
`type` discriminator; the rest of the payload is opaque), and the
top-level `attempts` counter (`job.get("attempts", 0)` when absent, here
always materialised). -/
structure Job where
  id : String
  jobType : String
  payload : String
  attempts : ℕ
deriving DecidableEq, Repr

/-- What a registered handler does when invoked on the job's `data`. -/
inductive HandlerResult where
  | ok
  | err (msg : String)
deriving DecidableEq, Repr

/-- Observable outcome of `QueueConsumer._process_job` on one dequeued
job: status `completed`; status `retry` and a `zadd` of the mutated job
back onto the queue at the given score; or status `failed` and a move of
the mutated job to the dead-letter queue. -/
inductive ProcessOutcome where
  | completed
  | requeued (job : Job) (score : ℚ) (errMsg : String)
  | deadLettered (job : Job) (errMsg : String)
deriving DecidableEq, Repr

/-- Model of `QueueConsumer._process_job`.  The handler lookup happens inside the
`try`: a missing handler raises `ValueError("No handler for job type:
...")`, which the `except Exception` clause treats exactly like a handler
failure.  On any failure: `attempts` is incremented in place; if the new
count reaches `max_retries` the job goes to the DLQ with status `failed`,
otherwise it is re-`zadd`ed at score `now + retry_delay_seconds *
attempts` with status `retry`. -/
def process_job (settings : WorkerSettings)
    (handlers : String → Option (Job → HandlerResult)) (now : ℚ)
    (job : Job) : ProcessOutcome :=
  let run : Except String Unit :=
    match handlers job.jobType with
    | none => Except.error ("No handler for job type: " ++ job.jobType)
    | some h =>
      match h job with
      | HandlerResult.ok => Except.ok ()
      | HandlerResult.err m => Except.error m
  match run with
  | Except.ok _ => ProcessOutcome.completed
  | Except.error e =>
    let attempts := job.attempts + 1
    let job := { job with attempts := attempts }
    if attempts ≥ settings.max_retries then
      ProcessOutcome.deadLettered job e
    else
      ProcessOutcome.requeued job
        (now + settings.retry_delay_seconds * attempts) e

/-- Job status string written by `_update_job_status` for each outcome. -/
def outcomeStatus : ProcessOutcome → String
  | ProcessOutcome.completed => "completed"
  | ProcessOutcome.requeued _ _ _ => "retry"
  | ProcessOutcome.deadLettered _ _ => "failed"

/-- Drive one job through dequeue/process/re-enqueue cycles until it is
dead-lettered (or completes), with `fuel` bounding the number of cycles.
Returns `(number of process calls, number of re-enqueues, dead-lettered
job)` when the job ends in the DLQ within the fuel. -/
def runUntilDlq (settings : WorkerSettings)
    (handlers : String → Option (Job → HandlerResult)) (now : ℚ) :
    ℕ → Job → Option (ℕ × ℕ × Job)
  | 0, _ => none
  | fuel + 1, job =>
    match process_job settings handlers now job with
    | ProcessOutcome.completed => none
    | ProcessOutcome.deadLettered j _ => some (1, 0, j)
    | ProcessOutcome.requeued j _ _ =>
      (runUntilDlq settings handlers now fuel j).map
        fun r => (r.1 + 1, r.2.1 + 1, r.2.2)

/-! ## Queue scoring and dequeue order
(`src/backend/services/queue/redis_client.py`) -/

/-- Model of the `RedisClient.enqueue` score: `-priority +
datetime.utcnow().timestamp() / 1_000_000_000`. -/
def enqueueScore (priority : ℤ) (t : ℚ) : ℚ :=
  -(priority : ℚ) + t / 1000000000

/-- Model of `ZPOPMIN` over a modelled sorted set: remove and return the
lowest-scored entry.  Entries in the claims below have pairwise distinct
scores, so the tie-break is irrelevant; we take the earliest minimum. -/
def zpopmin {α : Type} : List (α × ℚ) → Option ((α × ℚ) × List (α × ℚ))
  | [] => none
  | x :: xs =>
    match zpopmin xs with
    | none => some (x, [])
    | some (m, rest) =>
      if x.2 ≤ m.2 then some (x, xs) else some (m, x :: rest)

/-! ## Dead-letter records (`RedisClient.move_to_dlq`,
`QueueConsumer._move_to_dlq`)

The Python builds `{**job, "failed_at": ..., "error": ...,
"original_queue": ...}`: a dict spread that keeps every key of the
serialized job and sets three additional keys.  We model the serialized
job as an association list of JSON values and the spread as in-place
update / append, matching Python dict-merge semantics. -/

/-- A JSON value as stored in serialized jobs. -/
inductive JVal where
  | s (v : String)
  | n (v : ℤ)
  | obj (fields : List (String × JVal))

/-- Look a key up in a JSON object (first occurrence). -/
def jlookup (k : String) : List (String × JVal) → Option JVal
  | [] => none
  | (k', v) :: rest => if k' = k then some v else jlookup k rest

/-- Python `d[k] = v` on a dict modelled as an association list: replace
the first occurrence in place, or append when absent. -/
def jset (k : String) (v : JVal) : List (String × JVal) →
    List (String × JVal)
  | [] => [(k, v)]
  | (k', v') :: rest =>
    if k' = k then (k, v) :: rest else (k', v') :: jset k v rest

/-- Model of `move_to_dlq`: the dead-letter record `{**job, "failed_at":
failed_at, "error": error, "original_queue": queue_name}`. -/
def move_to_dlq (queue_name : String) (job : List (String × JVal))
    (error failed_at : String) : List (String × JVal) :=
  jset "original_queue" (JVal.s queue_name)
    (jset "error" (JVal.s error)
      (jset "failed_at" (JVal.s failed_at) job))

/-! ## Helper lemmas: circuit breaker step behavior -/

theorem record_success_of_not_halfOpen (cb : CircuitBreaker) (now : ℚ)
    (h : cb.state ≠ CircuitState.halfOpen) :
    cb.record_success now =
      { cb with stats := { cb.stats with
          successes := cb.stats.successes + 1
          last_success_time := some now } } := by
  simp [CircuitBreaker.record_success, h]

theorem record_failure_of_closed_lt (cb : CircuitBreaker) (now : ℚ)
    (h : cb.state = CircuitState.closed)
    (hlt : cb.stats.failures + 1 < cb.failure_threshold) :
    cb.record_failure now =
      { cb with stats := { cb.stats with
          failures := cb.stats.failures + 1
          last_failure_time := some now } } := by
  simp only [CircuitBreaker.record_failure, h]
  simp [show ¬ (cb.failure_threshold ≤ cb.stats.failures + 1) by omega]

theorem record_failure_of_closed_ge (cb : CircuitBreaker) (now : ℚ)
    (h : cb.state = CircuitState.closed)
    (hge : cb.failure_threshold ≤ cb.stats.failures + 1) :
    cb.record_failure now =
      { cb with
        state := CircuitState.opened
        stats := { cb.stats with
          failures := cb.stats.failures + 1
          last_failure_time := some now
          state_changed_at := now } } := by
  simp [CircuitBreaker.record_failure, CircuitBreaker.transition_to, h, hge]

theorem record_failure_of_opened (cb : CircuitBreaker) (now : ℚ)
    (h : cb.state = CircuitState.opened) :
    cb.record_failure now =
      { cb with stats := { cb.stats with
          failures := cb.stats.failures + 1
          last_failure_time := some now } } := by
  simp [CircuitBreaker.record_failure, h]

/-- A breaker that is open stays open under any recorded event: only the
lazy recovery check can leave the open state. -/
theorem apply_events_opened (es : List BreakerEvent) (cb : CircuitBreaker)
    (h : cb.state = CircuitState.opened) :
    (cb.apply_events es).state = CircuitState.opened := by
  induction es generalizing cb with
  | nil => simpa [CircuitBreaker.apply_events]
  | cons e es ih =>
    have hstep : (cb.apply_event e).state = CircuitState.opened := by
      cases e with
      | success t =>
        simp [CircuitBreaker.apply_event,
          record_success_of_not_halfOpen cb t (by simp [h]), h]
      | failure t =>
        simp [CircuitBreaker.apply_event, record_failure_of_opened cb t h, h]
    simpa [CircuitBreaker.apply_events] using
      ih (cb.apply_event e) hstep

/-! ## C3: the closed breaker opens exactly on the threshold-th failure -/

/-- C3 — With `failure_threshold = 5`, from the initial state the
first four `record_failure` calls leave the breaker Closed; the 5th call
performs the Closed→Open transition and records `state_changed_at` as its
own call time; and a 6th failure performs no further transition
(`state_changed_at` stays at the 5th call's time). -/
theorem C3_opens_on_fifth_failure (rt : ℚ) (st : ℕ)
    (t0 t1 t2 t3 t4 t5 t6 : ℚ) :
    ((((((CircuitBreaker.init 5 rt st t0).record_failure t1).record_failure
        t2).record_failure t3).record_failure t4).state =
      CircuitState.closed) ∧
    (((((((CircuitBreaker.init 5 rt st t0).record_failure t1).record_failure
        t2).record_failure t3).record_failure t4).record_failure t5).state =
      CircuitState.opened) ∧
    (((((((CircuitBreaker.init 5 rt st t0).record_failure t1).record_failure
        t2).record_failure t3).record_failure t4).record_failure
        t5).stats.state_changed_at = t5) ∧
    ((((((((CircuitBreaker.init 5 rt st t0).record_failure t1).record_failure
        t2).record_failure t3).record_failure t4).record_failure
        t5).record_failure t6).stats.state_changed_at = t5) := by
  simp [CircuitBreaker.init, CircuitBreaker.record_failure,
    CircuitBreaker.transition_to]

theorem failureCount_cons_success (t : ℚ) (es : List BreakerEvent) :
    failureCount (BreakerEvent.success t :: es) = failureCount es := by
  simp [failureCount]

theorem failureCount_cons_failure (t : ℚ) (es : List BreakerEvent) :
    failureCount (BreakerEvent.failure t :: es) = failureCount es + 1 := by
  simp [failureCount]

/-- A closed breaker that still has to accumulate at least
`failure_threshold - failures` failures, and does (in any interleaving
with successes), ends up open. -/
theorem opened_of_enough_failures (es : List BreakerEvent)
    (cb : CircuitBreaker) (hclosed : cb.state = CircuitState.closed)
    (hlt : cb.stats.failures < cb.failure_threshold)
    (hcount : cb.failure_threshold ≤ cb.stats.failures + failureCount es) :
    (cb.apply_events es).state = CircuitState.opened := by
  induction es generalizing cb with
  | nil =>
    exfalso
    simp [failureCount] at hcount
    omega
  | cons e es ih =>
    cases e with
    | success t =>
      rw [failureCount_cons_success] at hcount
      have hs := record_success_of_not_halfOpen cb t (by simp [hclosed])
      show ((cb.apply_event (BreakerEvent.success t)).apply_events es).state
        = CircuitState.opened
      rw [CircuitBreaker.apply_event, hs]
      exact ih _ hclosed hlt hcount
    | failure t =>
      rw [failureCount_cons_failure] at hcount
      show ((cb.apply_event (BreakerEvent.failure t)).apply_events es).state
        = CircuitState.opened
      rw [CircuitBreaker.apply_event]
      by_cases hnext : cb.stats.failures + 1 < cb.failure_threshold
      · rw [record_failure_of_closed_lt cb t hclosed hnext]
        exact ih _ hclosed hnext
          (by show cb.failure_threshold ≤ cb.stats.failures + 1 +
                failureCount es
              omega)
      · rw [record_failure_of_closed_ge cb t hclosed (by omega)]
        exact apply_events_opened es _ rfl

theorem record_success_of_halfOpen_lt (cb : CircuitBreaker) (now : ℚ)
    (h : cb.state = CircuitState.halfOpen)
    (hlt : cb.half_open_successes + 1 < cb.success_threshold) :
    cb.record_success now =
      { cb with
        stats := { cb.stats with
          successes := cb.stats.successes + 1
          last_success_time := some now }
        half_open_successes := cb.half_open_successes + 1 } := by
  simp only [CircuitBreaker.record_success, h]
  simp [show ¬ (cb.success_threshold ≤ cb.half_open_successes + 1) by omega]

theorem record_success_of_halfOpen_ge (cb : CircuitBreaker) (now : ℚ)
    (h : cb.state = CircuitState.halfOpen)
    (hge : cb.success_threshold ≤ cb.half_open_successes + 1) :
    cb.record_success now =
      { cb with
        state := CircuitState.closed
        stats := { cb.stats with
          failures := 0
          successes := cb.stats.successes + 1
          last_success_time := some now
          state_changed_at := now }
        half_open_successes := cb.half_open_successes + 1 } := by
  simp [CircuitBreaker.record_success, CircuitBreaker.transition_to, h, hge]

theorem record_failure_of_halfOpen (cb : CircuitBreaker) (now : ℚ)
    (h : cb.state = CircuitState.halfOpen) :
    cb.record_failure now =
      { cb with
        state := CircuitState.opened
        stats := { cb.stats with
          failures := cb.stats.failures + 1
          last_failure_time := some now
          state_changed_at := now } } := by
  simp [CircuitBreaker.record_failure, CircuitBreaker.transition_to, h]

/-- Recording successes in half-open, while strictly below
`success_threshold`, just accumulates the half-open counter. -/
theorem halfOpen_successes_accumulate (ts : List ℚ) (cb : CircuitBreaker)
    (h : cb.state = CircuitState.halfOpen)
    (hlt : cb.half_open_successes + ts.length < cb.success_threshold) :
    (cb.apply_events (ts.map BreakerEvent.success)).state =
        CircuitState.halfOpen ∧
    (cb.apply_events (ts.map BreakerEvent.success)).half_open_successes =
        cb.half_open_successes + ts.length ∧
    (cb.apply_events (ts.map BreakerEvent.success)).success_threshold =
        cb.success_threshold := by
  induction ts generalizing cb with
  | nil => simp [CircuitBreaker.apply_events, h]
  | cons t ts ih =>
    simp only [List.length_cons] at hlt
    have hs := record_success_of_halfOpen_lt cb t h (by omega)
    have h1 : (cb.record_success t).state = CircuitState.halfOpen := by
      simp [hs, h]
    have h2 : (cb.record_success t).half_open_successes =
        cb.half_open_successes + 1 := by
      simp [hs]
    have h3 : (cb.record_success t).success_threshold =
        cb.success_threshold := by
      simp [hs]
    obtain ⟨ih1, ih2, ih3⟩ := ih (cb.record_success t) h1
      (by rw [h2, h3]; omega)
    simp only [List.map_cons, CircuitBreaker.apply_events, List.foldl_cons,
      CircuitBreaker.apply_event, List.length_cons] at ih1 ih2 ih3 ⊢
    refine ⟨ih1, ?_, ih3.trans h3⟩
    rw [ih2, h2]
    omega

/-! ## C10: closed-state successes never reset the failure counter -/

/-- C10 — In the Closed state `record_success` leaves the failure
counter untouched and the breaker Closed; consequently, starting from a
fresh breaker with `failure_threshold = ft ≥ 1`, any event sequence
containing at least `ft` failures — no matter how many successes are
interleaved — leaves the circuit Open. -/
theorem C10_closed_success_keeps_failures (cb : CircuitBreaker)
    (now t0 rt : ℚ) (ft st : ℕ) (es : List BreakerEvent)
    (hclosed : cb.state = CircuitState.closed)
    (hft : 1 ≤ ft) (hcount : ft ≤ failureCount es) :
    (cb.record_success now).stats.failures = cb.stats.failures ∧
    (cb.record_success now).state = CircuitState.closed ∧
    ((CircuitBreaker.init ft rt st t0).apply_events es).state =
      CircuitState.opened := by
  refine ⟨?_, ?_, ?_⟩
  · rw [record_success_of_not_halfOpen cb now (by simp [hclosed])]
  · rw [record_success_of_not_halfOpen cb now (by simp [hclosed])]
    exact hclosed
  · exact opened_of_enough_failures es _ rfl (by simp [CircuitBreaker.init]; omega)
      (by simp [CircuitBreaker.init]; omega)

/-- Witness for C10 at `ft = 2` with two failures interleaved with a
success. -/
theorem C10_closed_success_keeps_failures_witness :
    (((CircuitBreaker.init 2 60 2 0).record_success 3).stats.failures =
        (CircuitBreaker.init 2 60 2 0).stats.failures) ∧
    (((CircuitBreaker.init 2 60 2 0).record_success 3).state =
        CircuitState.closed) ∧
    ((CircuitBreaker.init 2 60 2 0).apply_events
        [BreakerEvent.failure 1, BreakerEvent.success 2,
          BreakerEvent.failure 3]).state = CircuitState.opened :=
  C10_closed_success_keeps_failures (CircuitBreaker.init 2 60 2 0) 3 0 60 2 2
    [BreakerEvent.failure 1, BreakerEvent.success 2, BreakerEvent.failure 3]
    rfl (by decide) (by decide)

/-! ## C5: half-open closes on the threshold-th success, reopens on one
failure -/

/-- C5 — A breaker that has just entered Half-Open stays Half-Open
through the first `success_threshold - 1` recorded successes, transitions
to Closed (zeroing the failure count) exactly on the
`success_threshold`-th, and a single `record_failure` at any point while
Half-Open transitions it to Open with `state_changed_at` set to that
failure's time. -/
theorem C5_halfOpen_close_or_reopen (cb : CircuitBreaker)
    (tH tLast tF : ℚ) (ts : List ℚ)
    (hlen : ts.length + 1 = cb.success_threshold) :
    (((cb.transition_to CircuitState.halfOpen tH).apply_events
        (ts.map BreakerEvent.success)).state = CircuitState.halfOpen) ∧
    ((((cb.transition_to CircuitState.halfOpen tH).apply_events
        (ts.map BreakerEvent.success)).record_success tLast).state =
      CircuitState.closed) ∧
    ((((cb.transition_to CircuitState.halfOpen tH).apply_events
        (ts.map BreakerEvent.success)).record_success
        tLast).stats.failures = 0) ∧
    ((((cb.transition_to CircuitState.halfOpen tH).apply_events
        (ts.map BreakerEvent.success)).record_failure tF).state =
      CircuitState.opened) ∧
    ((((cb.transition_to CircuitState.halfOpen tH).apply_events
        (ts.map BreakerEvent.success)).record_failure
        tF).stats.state_changed_at = tF) := by
  have hH : (cb.transition_to CircuitState.halfOpen tH).state =
      CircuitState.halfOpen := by
    simp [CircuitBreaker.transition_to]
  have hH0 : (cb.transition_to CircuitState.halfOpen tH).half_open_successes
      = 0 := by
    simp [CircuitBreaker.transition_to]
  have hHT : (cb.transition_to CircuitState.halfOpen tH).success_threshold
      = cb.success_threshold := by
    simp [CircuitBreaker.transition_to]
  obtain ⟨hstate, hcnt, hthr⟩ :=
    halfOpen_successes_accumulate ts (cb.transition_to CircuitState.halfOpen
      tH) hH (by rw [hH0, hHT]; omega)
  have hclose := record_success_of_halfOpen_ge _ tLast hstate
    (by rw [hcnt, hthr, hH0, hHT]; omega)
  have hfail := record_failure_of_halfOpen _ tF hstate
  refine ⟨hstate, ?_, ?_, ?_, ?_⟩
  · rw [hclose]
  · rw [hclose]
  · rw [hfail]
  · rw [hfail]

/-- Witness for C5 with `success_threshold = 2` and one intermediate
success. -/
theorem C5_halfOpen_close_or_reopen_witness :
    ((((CircuitBreaker.init 5 60 2 0).transition_to CircuitState.halfOpen
        10).apply_events ([11].map BreakerEvent.success)).state =
      CircuitState.halfOpen) ∧
    (((((CircuitBreaker.init 5 60 2 0).transition_to CircuitState.halfOpen
        10).apply_events ([11].map BreakerEvent.success)).record_success
        12).state = CircuitState.closed) ∧
    (((((CircuitBreaker.init 5 60 2 0).transition_to CircuitState.halfOpen
        10).apply_events ([11].map BreakerEvent.success)).record_success
        12).stats.failures = 0) ∧
    (((((CircuitBreaker.init 5 60 2 0).transition_to CircuitState.halfOpen
        10).apply_events ([11].map BreakerEvent.success)).record_failure
        13).state = CircuitState.opened) ∧
    (((((CircuitBreaker.init 5 60 2 0).transition_to CircuitState.halfOpen
        10).apply_events ([11].map BreakerEvent.success)).record_failure
        13).stats.state_changed_at = 13) :=
  C5_halfOpen_close_or_reopen (CircuitBreaker.init 5 60 2 0) 10 12 13 [11]
    (by decide)

/-! ## C4: an open breaker rejects calls until the recovery timeout -/

/-- C4 — While the breaker is Open and strictly less than
`recovery_timeout` has elapsed since `state_changed_at`, a wrapped call is
rejected with `CircuitBreakerError` carrying `state_changed_at +
recovery_timeout` and the breaker is left untouched — the wrapped
function is never invoked, which is why the rejected result does not
depend on `f` at all; reading the state then still yields Open.  Reading
the state at a time at least `recovery_timeout` past `state_changed_at`
self-transitions the breaker to Half-Open. -/
theorem C4_open_rejects_until_timeout (ε α : Type) (cb : CircuitBreaker)
    (now now2 : ℚ) (f : Unit → Except ε α)
    (hopen : cb.state = CircuitState.opened)
    (hlt : now - cb.stats.state_changed_at < cb.recovery_timeout)
    (hge : cb.recovery_timeout ≤ now2 - cb.stats.state_changed_at) :
    cb.wrapped_call now f =
      (CallOutcome.rejected
        (cb.stats.state_changed_at + cb.recovery_timeout), cb) ∧
    (cb.read_state now).1 = CircuitState.opened ∧
    (cb.read_state now2).1 = CircuitState.halfOpen := by
  have h1 : ¬ (cb.recovery_timeout ≤ now - cb.stats.state_changed_at) :=
    not_le.mpr hlt
  refine ⟨?_, ?_, ?_⟩
  · simp [CircuitBreaker.wrapped_call, CircuitBreaker.allow_request,
      CircuitBreaker.read_state, CircuitBreaker.check_recovery, hopen, h1]
  · simp [CircuitBreaker.read_state, CircuitBreaker.check_recovery, hopen,
      h1]
  · simp [CircuitBreaker.read_state, CircuitBreaker.check_recovery,
      CircuitBreaker.transition_to, hopen, hge]

/-- Witness for C4: an open breaker with `state_changed_at = 0`,
`recovery_timeout = 60`, probed at `now = 10` and `now2 = 70`. -/
theorem C4_open_rejects_until_timeout_witness :
    (({ failure_threshold := 5, recovery_timeout := 60
        success_threshold := 2, state := CircuitState.opened
        stats := { failures := 5, successes := 0
                   last_failure_time := some 0, last_success_time := none
                   state_changed_at := 0 }
        half_open_successes := 0 } : CircuitBreaker).wrapped_call 10
        (fun _ => (Except.ok () : Except String Unit)) =
      (CallOutcome.rejected (0 + 60),
        { failure_threshold := 5, recovery_timeout := 60
          success_threshold := 2, state := CircuitState.opened
          stats := { failures := 5, successes := 0
                     last_failure_time := some 0, last_success_time := none
                     state_changed_at := 0 }
          half_open_successes := 0 })) ∧
    (({ failure_threshold := 5, recovery_timeout := 60
        success_threshold := 2, state := CircuitState.opened
        stats := { failures := 5, successes := 0
                   last_failure_time := some 0, last_success_time := none
                   state_changed_at := 0 }
        half_open_successes := 0 } : CircuitBreaker).read_state 10).1 =
      CircuitState.opened ∧
    (({ failure_threshold := 5, recovery_timeout := 60
        success_threshold := 2, state := CircuitState.opened
        stats := { failures := 5, successes := 0
                   last_failure_time := some 0, last_success_time := none
                   state_changed_at := 0 }
        half_open_successes := 0 } : CircuitBreaker).read_state 70).1 =
      CircuitState.halfOpen :=
  C4_open_rejects_until_timeout String Unit _ 10 70
    (fun _ => Except.ok ()) rfl (by norm_num) (by norm_num)

/-! ## C6: exponential backoff stays within ±25% of the capped delay -/

/-- C6 — For any attempt number `≥ 1`, any nonnegative `base_delay`
and `max_delay`, and any jitter sample `u` drawn from the interval
`random.uniform(-delay/4, delay/4)` guarantees, the backoff delay lies in
`[0.75 * d, 1.25 * d]` where `d = min(base_delay * 2^(attempt-1),
max_delay)`, and is never negative. -/
theorem C6_backoff_bounds (attempt : ℕ) (base_delay max_delay u : ℚ)
    (ha : 1 ≤ attempt) (hb : 0 ≤ base_delay) (hm : 0 ≤ max_delay)
    (hu : |u| ≤ min (base_delay * 2 ^ (attempt - 1)) max_delay / 4) :
    0 ≤ exponential_backoff attempt base_delay max_delay true u ∧
    3 / 4 * min (base_delay * 2 ^ (attempt - 1)) max_delay ≤
      exponential_backoff attempt base_delay max_delay true u ∧
    exponential_backoff attempt base_delay max_delay true u ≤
      5 / 4 * min (base_delay * 2 ^ (attempt - 1)) max_delay := by
  have hd0 : 0 ≤ min (base_delay * 2 ^ (attempt - 1)) max_delay :=
    le_min (mul_nonneg hb (by positivity)) hm
  rw [abs_le] at hu
  have hnn : 0 ≤ min (base_delay * 2 ^ (attempt - 1)) max_delay + u := by
    linarith [hu.1]
  have hval : exponential_backoff attempt base_delay max_delay true u =
      min (base_delay * 2 ^ (attempt - 1)) max_delay + u := by
    simp only [exponential_backoff, if_true]
    exact max_eq_right hnn
  refine ⟨?_, ?_, ?_⟩
  · rw [hval]; exact hnn
  · rw [hval]; linarith [hu.1]
  · rw [hval]; linarith [hu.2]

/-- Witness for C6 at `attempt = 1`, `base_delay = 1`, `max_delay = 60`
and jitter sample `u = 1/4`. -/
theorem C6_backoff_bounds_witness :
    0 ≤ exponential_backoff 1 1 60 true (1 / 4) ∧
    3 / 4 * min ((1 : ℚ) * 2 ^ (1 - 1)) 60 ≤
      exponential_backoff 1 1 60 true (1 / 4) ∧
    exponential_backoff 1 1 60 true (1 / 4) ≤
      5 / 4 * min ((1 : ℚ) * 2 ^ (1 - 1)) 60 :=
  C6_backoff_bounds 1 1 60 (1 / 4) (by norm_num) (by norm_num)
    (by norm_num) (by rw [abs_le]; constructor <;> norm_num)

/-! ## Helper lemmas: consumer job processing -/

theorem process_job_err (settings : WorkerSettings)
    (handlers : String → Option (Job → HandlerResult)) (now : ℚ)
    (job : Job) (hd : Job → HandlerResult) (m : String)
    (hh : handlers job.jobType = some hd)
    (hm : hd job = HandlerResult.err m) :
    process_job settings handlers now job =
      if settings.max_retries ≤ job.attempts + 1 then
        ProcessOutcome.deadLettered { job with attempts := job.attempts + 1 }
          m
      else
        ProcessOutcome.requeued { job with attempts := job.attempts + 1 }
          (now + settings.retry_delay_seconds * ((job.attempts + 1 : ℕ) : ℚ))
          m := by
  simp [process_job, hh, hm]

/-- Repeated dequeue/process cycles of a job whose handler always fails:
with fuel equal to the remaining attempt budget, the job is processed
`k` times, re-enqueued `k - 1` times, and dead-lettered with `attempts =
max_retries`. -/
theorem runUntilDlq_always_fail (settings : WorkerSettings)
    (handlers : String → Option (Job → HandlerResult)) (now : ℚ)
    (ty : String) (hd : Job → HandlerResult) (msgF : Job → String)
    (hh : handlers ty = some hd)
    (hall : ∀ j : Job, hd j = HandlerResult.err (msgF j)) :
    ∀ (k : ℕ) (job : Job), job.jobType = ty →
      job.attempts + k = settings.max_retries → 1 ≤ k →
      runUntilDlq settings handlers now k job =
        some (k, k - 1, { job with attempts := settings.max_retries }) := by
  intro k
  induction k with
  | zero => intro job _ _ h1; exact absurd h1 (by omega)
  | succ k ih =>
    intro job hty hsum _
    have hpj := process_job_err settings handlers now job hd (msgF job)
      (by rw [hty]; exact hh) (hall job)
    rcases Nat.eq_zero_or_pos k with hk0 | hkpos
    · subst hk0
      have step : runUntilDlq settings handlers now 1 job =
          some (1, 0, { job with attempts := job.attempts + 1 }) := by
        rw [runUntilDlq, hpj, if_pos (by omega)]
      rw [step]
      simp [show job.attempts + 1 = settings.max_retries by omega]
    · have step : runUntilDlq settings handlers now (k + 1) job =
          Option.map (fun r => (r.1 + 1, r.2.1 + 1, r.2.2))
            (runUntilDlq settings handlers now k
              { job with attempts := job.attempts + 1 }) := by
        rw [runUntilDlq, hpj, if_neg (by omega)]
      rw [step, ih { job with attempts := job.attempts + 1 } (by simp [hty])
        (by simp; omega) hkpos]
      simp
      omega

/-! ## C2: failed jobs are retried with delayed score, then dead-lettered -/

/-- C2 — When a job's handler raises: `attempts` is incremented; with
the new count still below `max_retries` the outcome is status `retry`
and a re-enqueue of the same job (with the incremented counter) at score
`now + retry_delay_seconds * attempts`; once the new count reaches
`max_retries` the outcome is status `failed` and a move to the
dead-letter store.  Consequently a job starting at `attempts = 0` whose
handler always fails is processed `max_retries` times, re-enqueued
`max_retries - 1` times, and dead-lettered with `attempts =
max_retries`. -/
theorem C2_failure_retry_then_dlq (settings : WorkerSettings)
    (handlers : String → Option (Job → HandlerResult)) (now : ℚ)
    (job job0 : Job) (hd hd0 : Job → HandlerResult) (m : String)
    (msgF : Job → String)
    (hh : handlers job.jobType = some hd)
    (hm : hd job = HandlerResult.err m)
    (hh0 : handlers job0.jobType = some hd0)
    (hall : ∀ j : Job, hd0 j = HandlerResult.err (msgF j))
    (h0 : job0.attempts = 0) (hR : 1 ≤ settings.max_retries) :
    (job.attempts + 1 < settings.max_retries →
      process_job settings handlers now job =
        ProcessOutcome.requeued { job with attempts := job.attempts + 1 }
          (now + settings.retry_delay_seconds * ((job.attempts + 1 : ℕ) : ℚ))
          m ∧
      outcomeStatus (process_job settings handlers now job) = "retry") ∧
    (settings.max_retries ≤ job.attempts + 1 →
      process_job settings handlers now job =
        ProcessOutcome.deadLettered { job with attempts := job.attempts + 1 }
          m ∧
      outcomeStatus (process_job settings handlers now job) = "failed") ∧
    runUntilDlq settings handlers now settings.max_retries job0 =
      some (settings.max_retries, settings.max_retries - 1,
        { job0 with attempts := settings.max_retries }) := by
  have hpj := process_job_err settings handlers now job hd m hh hm
  refine ⟨?_, ?_, ?_⟩
  · intro hlt
    rw [hpj, if_neg (by omega)]
    exact ⟨rfl, rfl⟩
  · intro hge
    rw [hpj, if_pos hge]
    exact ⟨rfl, rfl⟩
  · exact runUntilDlq_always_fail settings handlers now job0.jobType hd0
      msgF hh0 hall settings.max_retries job0 rfl (by omega) hR

/-- Witness for C2: `max_retries = 3`, a handler that always fails, a job
at `attempts = 1` (re-enqueued with score `100 + 5 * 2`) and a fresh job
driven to the DLQ in 3 attempts. -/
theorem C2_failure_retry_then_dlq_witness :
    (process_job { max_retries := 3, retry_delay_seconds := 5 }
        (fun t => if t = "map_processing"
          then some (fun _ => HandlerResult.err "boom") else none) 100
        { id := "j1", jobType := "map_processing", payload := "p"
          attempts := 1 } =
      ProcessOutcome.requeued
        { id := "j1", jobType := "map_processing", payload := "p"
          attempts := 2 } (100 + 5 * ((2 : ℕ) : ℚ)) "boom") ∧
    runUntilDlq { max_retries := 3, retry_delay_seconds := 5 }
        (fun t => if t = "map_processing"
          then some (fun _ => HandlerResult.err "boom") else none) 100 3
        { id := "j2", jobType := "map_processing", payload := "q"
          attempts := 0 } =
      some (3, 2,
        { id := "j2", jobType := "map_processing", payload := "q"
          attempts := 3 }) := by
  have h := C2_failure_retry_then_dlq
    { max_retries := 3, retry_delay_seconds := 5 }
    (fun t => if t = "map_processing"
      then some (fun _ => HandlerResult.err "boom") else none) 100
    { id := "j1", jobType := "map_processing", payload := "p"
      attempts := 1 }
    { id := "j2", jobType := "map_processing", payload := "q"
      attempts := 0 }
    (fun _ => HandlerResult.err "boom") (fun _ => HandlerResult.err "boom")
    "boom" (fun _ => "boom") rfl rfl rfl (fun _ => rfl) rfl (by decide)
  exact ⟨(h.1 (by decide)).1, h.2.2⟩

/-! ## C1: a job with no registered handler is still retried -/

/-- C1 counterexample — the spec says a job whose type has no
registered handler is a permanent failure that is never re-enqueued; in
the code the `ValueError` raised by the missing-handler lookup is caught
by the same `except Exception` clause as handler failures, so with
`attempts` remaining below `max_retries` the job IS re-enqueued: concrete
run with `max_retries = 3`, a job of unknown type `mystery` at
`attempts = 0`. -/
theorem C1_counterexample :
    process_job { max_retries := 3, retry_delay_seconds := 5 }
      (fun _ => none) 100
      { id := "j1", jobType := "mystery", payload := "", attempts := 0 } =
    ProcessOutcome.requeued
      { id := "j1", jobType := "mystery", payload := "", attempts := 1 }
      105 "No handler for job type: mystery" := by
  simp [process_job]
  norm_num

/-- C1 amended — A dequeued job whose type has no registered
handler fails with the `ValueError` message and is treated exactly like
any other handler failure: `attempts` is incremented, the job is
re-enqueued with the delayed retry score while the new count is below
`max_retries`, and dead-lettered once the count reaches `max_retries`. -/
theorem C1_unknown_type_retried (settings : WorkerSettings)
    (handlers : String → Option (Job → HandlerResult)) (now : ℚ)
    (job : Job) (hnone : handlers job.jobType = none) :
    (job.attempts + 1 < settings.max_retries →
      process_job settings handlers now job =
        ProcessOutcome.requeued { job with attempts := job.attempts + 1 }
          (now + settings.retry_delay_seconds * ((job.attempts + 1 : ℕ) : ℚ))
          ("No handler for job type: " ++ job.jobType)) ∧
    (settings.max_retries ≤ job.attempts + 1 →
      process_job settings handlers now job =
        ProcessOutcome.deadLettered { job with attempts := job.attempts + 1 }
          ("No handler for job type: " ++ job.jobType)) := by
  constructor
  · intro hlt
    simp [process_job, hnone, show ¬ (settings.max_retries ≤
      job.attempts + 1) by omega]
  · intro hge
    simp [process_job, hnone, hge]

/-- Witness for C1 (amended): the retry branch at `attempts = 0`,
`max_retries = 3`, and the dead-letter branch at `attempts = 2`. -/
theorem C1_unknown_type_retried_witness :
    (process_job { max_retries := 3, retry_delay_seconds := 5 }
        (fun _ => none) 100
        { id := "j1", jobType := "mystery", payload := "", attempts := 0 } =
      ProcessOutcome.requeued
        { id := "j1", jobType := "mystery", payload := "", attempts := 1 }
        (100 + 5 * ((0 + 1 : ℕ) : ℚ)) "No handler for job type: mystery") ∧
    (process_job { max_retries := 3, retry_delay_seconds := 5 }
        (fun _ => none) 100
        { id := "j2", jobType := "mystery", payload := "", attempts := 2 } =
      ProcessOutcome.deadLettered
        { id := "j2", jobType := "mystery", payload := "", attempts := 3 }
        "No handler for job type: mystery") :=
  ⟨(C1_unknown_type_retried { max_retries := 3, retry_delay_seconds := 5 }
      (fun _ => none) 100
      { id := "j1", jobType := "mystery", payload := "", attempts := 0 }
      rfl).1 (by decide),
   (C1_unknown_type_retried { max_retries := 3, retry_delay_seconds := 5 }
      (fun _ => none) 100
      { id := "j2", jobType := "mystery", payload := "", attempts := 2 }
      rfl).2 (by decide)⟩

/-! ## C8: exhausting all attempts raises RetryExhausted with the last
error -/

/-- The attempt loop on a function that fails with a catchable, retryable
error at every attempt in `[attempt, max_attempts]` ends in
`RetryExhausted` carrying the final attempt's error. -/
theorem retryGo_all_fail {ε α : Type} (max_attempts : ℕ)
    (isCatchable shouldRetry : ε → Bool) (f : ℕ → Except ε α) (err : ℕ → ε)
    (hf : ∀ i, 1 ≤ i → i ≤ max_attempts → f i = Except.error (err i))
    (hc : ∀ i, 1 ≤ i → i ≤ max_attempts → isCatchable (err i) = true)
    (hr : ∀ i, 1 ≤ i → i ≤ max_attempts → shouldRetry (err i) = true) :
    ∀ (k attempt : ℕ) (last : Option ε), attempt + k = max_attempts →
      1 ≤ attempt →
      retryGo max_attempts isCatchable shouldRetry f attempt last =
        RetryResult.exhausted (α := α) (some (err max_attempts)) := by
  intro k
  induction k with
  | zero =>
    intro attempt last hsum h1
    have heq : attempt = max_attempts := by omega
    subst heq
    rw [retryGo]
    simp [hf attempt h1 le_rfl, hc attempt h1 le_rfl, hr attempt h1 le_rfl]
  | succ k ih =>
    intro attempt last hsum h1
    rw [retryGo]
    simp only [show ¬ attempt > max_attempts by omega, if_false,
      hf attempt h1 (by omega), hc attempt h1 (by omega),
      hr attempt h1 (by omega), show attempt ≠ max_attempts by omega,
      Bool.not_true, Bool.false_eq_true, ite_false]
    exact ih (attempt + 1) (some (err attempt)) (by omega) (by omega)

/-- C8 — A `retry`-wrapped operation that fails with a catchable,
retryable error on every one of its `max_attempts` attempts ends in
`RetryExhausted` carrying the last attempt's error.  The hypotheses
constrain `f` only on attempts `1..max_attempts`, so the conclusion is
independent of any later behaviour of `f`: no attempt is performed after
the `max_attempts`-th. -/
theorem C8_retry_exhausted {ε α : Type} (max_attempts : ℕ)
    (isCatchable shouldRetry : ε → Bool) (f : ℕ → Except ε α) (err : ℕ → ε)
    (hm : 1 ≤ max_attempts)
    (hf : ∀ i, 1 ≤ i → i ≤ max_attempts → f i = Except.error (err i))
    (hc : ∀ i, 1 ≤ i → i ≤ max_attempts → isCatchable (err i) = true)
    (hr : ∀ i, 1 ≤ i → i ≤ max_attempts → shouldRetry (err i) = true) :
    retry max_attempts isCatchable shouldRetry f =
      RetryResult.exhausted (α := α) (some (err max_attempts)) :=
  retryGo_all_fail max_attempts isCatchable shouldRetry f err hf hc hr
    (max_attempts - 1) 1 none (by omega) le_rfl

/-- Witness for C8: three attempts, each failing with its attempt number
as the error; the wrapper exhausts with error `3`. -/
theorem C8_retry_exhausted_witness :
    retry 3 (fun _ => true) (fun _ => true)
      (fun i => (Except.error i : Except ℕ Unit)) =
      RetryResult.exhausted (some 3) :=
  C8_retry_exhausted 3 (fun _ => true) (fun _ => true)
    (fun i => Except.error i) (fun i => i) (by omega)
    (fun _ _ _ => rfl) (fun _ _ _ => rfl) (fun _ _ _ => rfl)

/-! ## C9: dead-letter records preserve the job and add three fields -/

theorem jlookup_jset_same (k : String) (v : JVal)
    (d : List (String × JVal)) : jlookup k (jset k v d) = some v := by
  induction d with
  | nil => simp [jset, jlookup]
  | cons p rest ih =>
    obtain ⟨a, b⟩ := p
    by_cases h : a = k
    · simp [jset, jlookup, h]
    · simp [jset, jlookup, h, ih]

theorem jlookup_jset_ne (k k' : String) (v : JVal)
    (d : List (String × JVal)) (h : k ≠ k') :
    jlookup k (jset k' v d) = jlookup k d := by
  have h' : ¬ (k' = k) := fun hh => h hh.symm
  induction d with
  | nil => simp [jset, jlookup, h']
  | cons p rest ih =>
    obtain ⟨a, b⟩ := p
    by_cases ha : a = k'
    · subst ha
      simp [jset, jlookup, h']
    · simp [jset, jlookup, ha, ih]

/-- C9 — The dead-letter record built by `move_to_dlq` answers every
key lookup other than the three added keys exactly as the original job
does — in particular `id` and `data` (which holds the job's `type` and
`payload`) are unchanged — and carries `failed_at`, `error` and
`original_queue` with the supplied values. -/
theorem C9_dlq_preserves_fields (queue_name : String)
    (job : List (String × JVal)) (error failed_at : String) (k : String)
    (h1 : k ≠ "failed_at") (h2 : k ≠ "error")
    (h3 : k ≠ "original_queue") :
    jlookup k (move_to_dlq queue_name job error failed_at) =
      jlookup k job ∧
    jlookup "failed_at" (move_to_dlq queue_name job error failed_at) =
      some (JVal.s failed_at) ∧
    jlookup "error" (move_to_dlq queue_name job error failed_at) =
      some (JVal.s error) ∧
    jlookup "original_queue" (move_to_dlq queue_name job error failed_at) =
      some (JVal.s queue_name) := by
  unfold move_to_dlq
  refine ⟨?_, ?_, ?_, ?_⟩
  · rw [jlookup_jset_ne _ _ _ _ h3, jlookup_jset_ne _ _ _ _ h2,
      jlookup_jset_ne _ _ _ _ h1]
  · rw [jlookup_jset_ne _ _ _ _ (by decide),
      jlookup_jset_ne _ _ _ _ (by decide), jlookup_jset_same]
  · rw [jlookup_jset_ne _ _ _ _ (by decide), jlookup_jset_same]
  · rw [jlookup_jset_same]

/-- Witness for C9 on a concrete serialized job, looking up `id` (and,
through the unchanged `data` member, its `type` and `payload`). -/
theorem C9_dlq_preserves_fields_witness :
    jlookup "id" (move_to_dlq "map_processing"
      [("id", JVal.s "j1"),
        ("data", JVal.obj [("type", JVal.s "map_processing"),
          ("payload", JVal.s "p")]),
        ("attempts", JVal.n 2)] "boom" "2026-10-12T00:00:00Z") =
      jlookup "id"
        [("id", JVal.s "j1"),
          ("data", JVal.obj [("type", JVal.s "map_processing"),
            ("payload", JVal.s "p")]),
          ("attempts", JVal.n 2)] ∧
    jlookup "failed_at" (move_to_dlq "map_processing"
      [("id", JVal.s "j1"),
        ("data", JVal.obj [("type", JVal.s "map_processing"),
          ("payload", JVal.s "p")]),
        ("attempts", JVal.n 2)] "boom" "2026-10-12T00:00:00Z") =
      some (JVal.s "2026-10-12T00:00:00Z") ∧
    jlookup "error" (move_to_dlq "map_processing"
      [("id", JVal.s "j1"),
        ("data", JVal.obj [("type", JVal.s "map_processing"),
          ("payload", JVal.s "p")]),
        ("attempts", JVal.n 2)] "boom" "2026-10-12T00:00:00Z") =
      some (JVal.s "boom") ∧
    jlookup "original_queue" (move_to_dlq "map_processing"
      [("id", JVal.s "j1"),
        ("data", JVal.obj [("type", JVal.s "map_processing"),
          ("payload", JVal.s "p")]),
        ("attempts", JVal.n 2)] "boom" "2026-10-12T00:00:00Z") =
      some (JVal.s "map_processing") :=
  C9_dlq_preserves_fields "map_processing"
    [("id", JVal.s "j1"),
      ("data", JVal.obj [("type", JVal.s "map_processing"),
        ("payload", JVal.s "p")]),
      ("attempts", JVal.n 2)] "boom" "2026-10-12T00:00:00Z" "id"
    (by decide) (by decide) (by decide)

/-! ## C7: priority/enqueue-time ordering of the queue score

The enqueue score is `-priority + timestamp / 1_000_000_000`, and
`ZPOPMIN` delivers the lowest score first.  The time term is a Unix
timestamp divided by `10^9` — about `1.7` for present-day clocks, and not
bounded by `1` — so a large enough enqueue-time difference can outweigh a
priority difference: the spec's "higher priority is always dequeued
first" fails once the timestamps differ by at least
`10^9 * (priority difference)` seconds. -/

/-- C7 counterexample — a priority-5 job enqueued at timestamp `0` is
dequeued before a priority-6 job enqueued at timestamp `2 * 10^9`: the
strictly-higher-priority job is not dequeued first. -/
theorem C7_counterexample :
    (zpopmin [(("low" : String), enqueueScore 5 0),
        ("high", enqueueScore 6 2000000000)]).map
      (fun r => r.1.1) = some "low" := by
  norm_num [zpopmin, enqueueScore]

/-- C7 amended — Among equal-priority jobs the earlier-enqueued one
always has the strictly smaller score (so is dequeued first); a
strictly-higher-priority job has the smaller score — and is dequeued
first — provided its enqueue time does not exceed the other job's by
`10^9 * (priority difference)` seconds or more (always true for realistic
timestamps); and for the three jobs enqueued with priorities `[5, 20, 5]`
at increasing present-day timestamps, the three successive `ZPOPMIN`
pops return the priority-20 job, then the first priority-5 job, then the
second priority-5 job. -/
theorem C7_score_order (p p1 p2 : ℤ) (t1 t2 u1 u2 : ℚ)
    (hpt : t1 < t2) (hp : p1 < p2)
    (hu : u2 - u1 < ((p2 : ℚ) - (p1 : ℚ)) * 1000000000) :
    enqueueScore p t1 < enqueueScore p t2 ∧
    enqueueScore p2 u2 < enqueueScore p1 u1 ∧
    zpopmin [(("a" : String), enqueueScore 5 1700000000),
        ("b", enqueueScore 20 1700000001),
        ("c", enqueueScore 5 1700000002)] =
      some (("b", enqueueScore 20 1700000001),
        [("a", enqueueScore 5 1700000000),
          ("c", enqueueScore 5 1700000002)]) ∧
    zpopmin [(("a" : String), enqueueScore 5 1700000000),
        ("c", enqueueScore 5 1700000002)] =
      some (("a", enqueueScore 5 1700000000),
        [("c", enqueueScore 5 1700000002)]) ∧
    zpopmin [(("c" : String), enqueueScore 5 1700000002)] =
      some (("c", enqueueScore 5 1700000002), []) := by
  refine ⟨?_, ?_, ?_, ?_, ?_⟩
  · simp only [enqueueScore, div_eq_mul_inv]
    linarith
  · simp only [enqueueScore, div_eq_mul_inv]
    linarith
  · norm_num [zpopmin, enqueueScore]
  · norm_num [zpopmin, enqueueScore]
  · norm_num [zpopmin]

/-- Witness for C7 (amended) at priorities `7` (equal-priority part) and
`5 < 6` with enqueue times within the `10^9` window. -/
theorem C7_score_order_witness :
    enqueueScore 7 0 < enqueueScore 7 1 ∧
    enqueueScore 6 50 < enqueueScore 5 100 ∧
    zpopmin [(("a" : String), enqueueScore 5 1700000000),
        ("b", enqueueScore 20 1700000001),
        ("c", enqueueScore 5 1700000002)] =
      some (("b", enqueueScore 20 1700000001),
        [("a", enqueueScore 5 1700000000),
          ("c", enqueueScore 5 1700000002)]) ∧
    zpopmin [(("a" : String), enqueueScore 5 1700000000),
        ("c", enqueueScore 5 1700000002)] =
      some (("a", enqueueScore 5 1700000000),
        [("c", enqueueScore 5 1700000002)]) ∧
    zpopmin [(("c" : String), enqueueScore 5 1700000002)] =
      some (("c", enqueueScore 5 1700000002), []) :=
  C7_score_order 7 5 6 0 1 100 50 (by norm_num) (by norm_num)
    (by norm_num)

end Worker
